import Mathlib

/-!
Verification of the brand-sentiment pipeline: shallow embedding of
`src/backend/main.py` and `src/app.py` (text normalization, dual-model
sentiment scoring, hashtag extraction, and report aggregation), together
with theorems settling the specification claims.

Conventions: Python strings are Lean `String`s (lists of `Char`),
Python floats are modelled as exact rationals `ℚ`, Python exceptions as
`Except`, and the two sentiment sub-models (TextBlob polarity, VADER
compound) as function parameters `String → Except String ℚ` so that both
their values and their failure behaviour can be analyzed.  Each `re.sub`
deletion is embedded as a left-to-right scanner over the character list;
a Boolean state records whether the scanner is currently consuming the
tail of a greedy match, so that every recursive call is structural and
the definitions evaluate inside the kernel.
-/

deriving instance DecidableEq for Except

namespace BrandSentiment

/-- Python's `\s` class over the ASCII range (space, tab, LF, CR, VT, FF). -/
def pyIsSpace (c : Char) : Bool :=
  c = ' ' || c = '\t' || c = '\n' || c = '\r' || c = '\x0b' || c = '\x0c'

/-- Python's `\w` class (letters, digits, underscore). -/
def isWordChar (c : Char) : Bool :=
  c.isAlpha || c.isDigit || c = '_'

/-- Scanner for `re.sub(r'http\S+|www\S+|https\S+', '', text)`.
When the state is `true` the scanner is deleting the greedy `\S+` tail of
a URL match; it leaves that state at the first whitespace character.  A
match starts at `http`/`www` only when at least one non-space character
follows (the `https` branch of the regex is subsumed by the `http`
branch, exactly as in Python). -/
def uGo : Bool → List Char → List Char
  | true, [] => []
  | true, c :: cs => if pyIsSpace c then c :: uGo false cs else uGo true cs
  | false, [] => []
  | false, 'h' :: 't' :: 't' :: 'p' :: c :: cs =>
    if pyIsSpace c then 'h' :: 't' :: 't' :: 'p' :: uGo false (c :: cs)
    else uGo true cs
  | false, ['h', 't', 't', 'p'] => ['h', 't', 't', 'p']
  | false, 'w' :: 'w' :: 'w' :: c :: cs =>
    if pyIsSpace c then 'w' :: 'w' :: 'w' :: uGo false (c :: cs)
    else uGo true cs
  | false, ['w', 'w', 'w'] => ['w', 'w', 'w']
  | false, c :: cs => c :: uGo false cs

/-- `re.sub(r'http\S+|www\S+|https\S+', '', text)`. -/
def removeUrls (l : List Char) : List Char := uGo false l

/-- Scanner for `re.sub(r'\@\w+', '', text)`: the state is `true` while
deleting the greedy `\w+` tail of a mention.  An `@` always ends such a
run (it is not a word character) and immediately starts a new match
attempt, in either state. -/
def mGo : Bool → List Char → List Char
  | _, [] => []
  | _, '@' :: c :: cs =>
    if isWordChar c then mGo true cs else '@' :: mGo false (c :: cs)
  | _, ['@'] => ['@']
  | inW, c :: cs => if inW && isWordChar c then mGo true cs else c :: mGo false cs

/-- `re.sub(r'\@\w+', '', text)` (app-only mention removal). -/
def removeMentions (l : List Char) : List Char := mGo false l

/-- Scanner for `re.sub(r'RT[\s]+', '', text)`: the state is `true` while
deleting the greedy `[\s]+` tail of a match.  `R` is not whitespace, so
reaching an `RT` always ends such a run and starts a new match attempt,
in either state. -/
def rtGo : Bool → List Char → List Char
  | _, 'R' :: 'T' :: c :: cs =>
    if pyIsSpace c then rtGo true cs else 'R' :: 'T' :: rtGo false (c :: cs)
  | _, ['R', 'T'] => ['R', 'T']
  | _, [] => []
  | inS, c :: cs => if inS && pyIsSpace c then rtGo true cs else c :: rtGo false cs

/-- `re.sub(r'RT[\s]+', '', text)`. -/
def removeRT (l : List Char) : List Char := rtGo false l

/-- Scanner for `re.sub(r'\s+', ' ', text)`: the state is `true` while
inside a whitespace run whose single replacement space has already been
emitted. -/
def wsGo : Bool → List Char → List Char
  | _, [] => []
  | inR, c :: cs =>
    if pyIsSpace c then
      if inR then wsGo true cs else ' ' :: wsGo true cs
    else c :: wsGo false cs

/-- `re.sub(r'\s+', ' ', text)`. -/
def collapseWs (l : List Char) : List Char := wsGo false l

/-- Drop leading whitespace. -/
def trimL (l : List Char) : List Char := l.dropWhile pyIsSpace

/-- Python `str.strip()`: drop whitespace at both ends. -/
def stripChars (l : List Char) : List Char :=
  ((trimL l).reverse.dropWhile pyIsSpace).reverse

/-- Adjacent characters are not both whitespace. -/
def NoWsPair (a b : Char) : Prop := ¬(pyIsSpace a = true ∧ pyIsSpace b = true)

instance : ∀ a b, Decidable (NoWsPair a b) :=
  fun a b => inferInstanceAs (Decidable (¬(pyIsSpace a = true ∧ pyIsSpace b = true)))

/-- Backend `clean_tweet` (src/backend/main.py, lines 60-65): remove URLs,
remove `RT` markers, collapse whitespace runs, strip the ends. -/
def clean_tweet (s : String) : String :=
  ⟨stripChars (collapseWs (removeRT (removeUrls s.data)))⟩

/-- App `clean_text` (src/app.py, lines 27-33): remove URLs, mentions and
`RT` markers, then strip the ends only (no whitespace collapsing). -/
def clean_text (s : String) : String :=
  ⟨stripChars (removeRT (removeMentions (removeUrls s.data)))⟩

/-! ### Sentiment scoring -/

/-- Backend `analyze_sentiment` (src/backend/main.py, lines 67-97).
Only the TextBlob polarity call is wrapped in `try/except` (polarity
falls back to `0.0`); the VADER call is unprotected, so its exception
propagates out of the function. -/
def analyze_sentiment (pol comp : String → Except String ℚ) (text : String) :
    Except String (ℚ × String) :=
  let cleaned_text := clean_tweet text
  if cleaned_text.data.isEmpty then .ok (0, "Neutral")
  else
    let polarity : ℚ := match pol cleaned_text with | .ok p => p | .error _ => 0
    match comp cleaned_text with
    | .error e => .error e
    | .ok vader_compound =>
      let avg_score := polarity * (3 / 10) + vader_compound * (7 / 10)
      .ok (avg_score,
        if avg_score > 1 / 20 then ("Positive")
        else if avg_score < -(1 / 20) then ("Negative")
        else ("Neutral"))

/-- App `analyze_sentiment` (src/app.py, lines 35-63).  Neither sub-model
call is wrapped in `try/except`, so either exception propagates.  The
third component is the `color` string, which is empty in the source. -/
def app_analyze_sentiment (pol comp : String → Except String ℚ) (text : String) :
    Except String (ℚ × String × String) :=
  let cleaned := clean_text text
  if cleaned.data.isEmpty then .ok (0, "Neutral", "")
  else
    match pol cleaned with
    | .error e => .error e
    | .ok polarity =>
      match comp cleaned with
      | .error e => .error e
      | .ok vader_score =>
        let avg_score := polarity * (3 / 10) + vader_score * (7 / 10)
        .ok (avg_score,
          if avg_score > 1 / 20 then ("Positive")
          else if avg_score < -(1 / 20) then ("Negative")
          else ("Neutral"), "")

/-! ### Hashtag extraction -/

/-- Scanner for `re.findall(r'#(\w+)', t)`: returns the captured `\w+`
groups in order.  The state holds the reversed characters of the group
currently being captured. -/
def tagGo : Option (List Char) → List Char → List (List Char)
  | none, [] => []
  | some acc, [] => [acc.reverse]
  | st, '#' :: c :: cs =>
    (match st with | some acc => [acc.reverse] | none => []) ++
      (if isWordChar c then tagGo (some [c]) cs else tagGo none (c :: cs))
  | st, ['#'] => (match st with | some acc => [acc.reverse] | none => [])
  | some acc, c :: cs =>
    if isWordChar c then tagGo (some (c :: acc)) cs
    else acc.reverse :: tagGo none cs
  | none, _ :: cs => tagGo none cs

/-- `re.findall(r'#(\w+)', t)`. -/
def findTags (t : String) : List (List Char) := tagGo none t.data

/-- The distinct elements of `xs` in order of first occurrence (the key
order of a Python `Counter` built by repeated `+= 1`). -/
def firstSeen {α : Type} [DecidableEq α] (xs : List α) : List α :=
  xs.foldl (fun acc x => if x ∈ acc then acc else acc ++ [x]) []

/-- The `(element, count)` items of `Counter(xs)`, in first-seen order. -/
def counterItems {α : Type} [DecidableEq α] (xs : List α) : List (α × ℕ) :=
  (firstSeen xs).map (fun t => (t, xs.count t))

/-- Descending-count order used by `Counter.most_common`. -/
def countGe {α : Type} (a b : α × ℕ) : Prop := b.2 ≤ a.2

instance {α : Type} : DecidableRel (@countGe α) :=
  fun a b => inferInstanceAs (Decidable (b.2 ≤ a.2))

instance {α : Type} : IsTotal (α × ℕ) countGe :=
  ⟨fun a b => Nat.le_total b.2 a.2⟩

instance {α : Type} : IsTrans (α × ℕ) countGe :=
  ⟨fun _ _ _ hab hbc => Nat.le_trans hbc hab⟩

/-- `Counter(xs).most_common(n)`: the items sorted by count descending
(stably, so ties keep first-seen order, as Python's `sorted` does),
truncated to `n` entries. -/
def most_common {α : Type} [DecidableEq α] (n : ℕ) (xs : List α) : List (α × ℕ) :=
  (List.insertionSort countGe (counterItems xs)).take n

/-- Backend `extract_hashtags` (src/backend/main.py, lines 99-108):
tags are lower-cased before counting, the top 10 are taken, and entries
with count 1 are filtered out. -/
def extract_hashtags (tweets : List String) : List (String × ℕ) :=
  let hashtags := tweets.flatMap (fun tweet => (findTags tweet).map (fun tag => tag.map Char.toLower))
  let common := most_common 10 hashtags
  (common.filter (fun p => 1 < p.2)).map (fun p => (⟨'#' :: p.1⟩, p.2))

/-- App `extract_hashtags` (src/app.py, lines 65-75): tags are counted
with their original case, the top 10 are taken, and only the tag strings
(no counts) are returned. -/
def app_extract_hashtags (tweets : List String) : List String :=
  let hashtags := tweets.flatMap (fun tweet => findTags tweet)
  if hashtags.isEmpty then []
  else (most_common 10 hashtags).map (fun p => (⟨'#' :: p.1⟩ : String))

/-! ### Rounding

Python's `round(x, d)` rounds half to even. -/

/-- Round half to even, to an integer. -/
def halfEven (q : ℚ) : ℤ :=
  if q - Rat.floor q < 1 / 2 then Rat.floor q
  else if 1 / 2 < q - Rat.floor q then Rat.floor q + 1
  else if Rat.floor q % 2 = 0 then Rat.floor q else Rat.floor q + 1

/-- Python `round(q, d)`. -/
def pyRound (q : ℚ) (d : ℕ) : ℚ := (halfEven (q * 10 ^ d) : ℚ) / 10 ^ d

/-! ### Backend aggregation (`/analyze`) -/

/-- One scraped tweet as consumed by the analysis loop of
`analyze_brand`: the `date` is abstracted to a day key (`ℕ`), which the
source only ever buckets and sorts. -/
structure TweetIn where
  text : String
  date : ℕ
  username : String
  likes : ℕ
  retweets : ℕ
deriving DecidableEq

/-- The `TweetData` response model (src/backend/main.py, lines 36-43). -/
structure TweetData where
  text : String
  created_at : ℕ
  sentiment_score : ℚ
  sentiment_label : String
  username : String
  likes : ℕ
  retweets : ℕ
deriving DecidableEq

/-- The `SentimentResponse` response model (src/backend/main.py, lines
45-58); a timeline entry is `(date, positive, neutral, negative)`. -/
structure SentimentResponse where
  query : String
  total_tweets : ℕ
  overall_sentiment : String
  sentiment_score : ℚ
  positive_count : ℕ
  neutral_count : ℕ
  negative_count : ℕ
  positive_percentage : ℚ
  neutral_percentage : ℚ
  negative_percentage : ℚ
  tweets : List TweetData
  trending_hashtags : List (String × ℕ)
  sentiment_over_time : List (ℕ × ℕ × ℕ × ℕ)
deriving DecidableEq

/-- The per-date sentiment buckets (src/backend/main.py, lines 195-201
and 228-236): group by day key, count per label, sort days ascending.
For the labels produced by `analyze_sentiment` the `label.lower()` dict
update is exactly a per-label count. -/
def buildTimeline (pairs : List (ℕ × String)) : List (ℕ × ℕ × ℕ × ℕ) :=
  (List.insertionSort (fun a b => a ≤ b) (firstSeen (pairs.map (fun p => p.1)))).map
    (fun d =>
      (d,
       pairs.countP (fun p => p.1 == d && p.2 == "Positive"),
       pairs.countP (fun p => p.1 == d && !(p.2 == "Positive") && !(p.2 == "Negative")),
       pairs.countP (fun p => p.1 == d && !(p.2 == "Positive") && p.2 == "Negative")))

/-- The analysis loop and response construction of `analyze_brand`
(src/backend/main.py, lines 173-256), as a function of the already
scored posts.  Counting follows the source's `if/elif/else` on the
label. -/
def buildResponse (query : String) (tweets : List TweetIn) (scored : List (ℚ × String)) :
    SentimentResponse :=
  let pairs := tweets.zip scored
  let labels := pairs.map (fun p => p.2.2)
  let total_tweets := pairs.length
  let total_score : ℚ := (pairs.map (fun p => p.2.1)).sum
  let positive_count := labels.countP (fun l => l == "Positive")
  let negative_count := labels.countP (fun l => !(l == "Positive") && l == "Negative")
  let neutral_count := labels.countP (fun l => !(l == "Positive") && !(l == "Negative"))
  let avg_score : ℚ := if total_tweets > 0 then total_score / total_tweets else 0
  let overall_sentiment :=
    if avg_score > 1 / 20 then ("Positive")
    else if avg_score < -(1 / 20) then ("Negative")
    else ("Mixed/Neutral")
  let analyzed_tweets := pairs.map (fun p =>
    { text := ⟨p.1.text.data.take 280⟩
      created_at := p.1.date
      sentiment_score := pyRound p.2.1 3
      sentiment_label := p.2.2
      username := p.1.username
      likes := p.1.likes
      retweets := p.1.retweets : TweetData })
  { query := query
    total_tweets := total_tweets
    overall_sentiment := overall_sentiment
    sentiment_score := pyRound avg_score 3
    positive_count := positive_count
    neutral_count := neutral_count
    negative_count := negative_count
    positive_percentage := pyRound ((positive_count : ℚ) / total_tweets * 100) 1
    neutral_percentage := pyRound ((neutral_count : ℚ) / total_tweets * 100) 1
    negative_percentage := pyRound ((negative_count : ℚ) / total_tweets * 100) 1
    tweets := analyzed_tweets.take 50
    trending_hashtags := extract_hashtags (tweets.map (fun t => t.text))
    sentiment_over_time := buildTimeline (pairs.map (fun p => (p.1.date, p.2.2))) }

/-- Score each tweet in order, stopping at the first uncaught exception,
as the `for tweet_info in tweets_data` loop does. -/
def scoreAll (pol comp : String → Except String ℚ) :
    List TweetIn → Except String (List (ℚ × String))
  | [] => .ok []
  | t :: ts =>
    match analyze_sentiment pol comp t.text with
    | .error e => .error e
    | .ok s =>
      match scoreAll pol comp ts with
      | .error e => .error e
      | .ok ss => .ok (s :: ss)

/-- An error surfaced by the `/analyze` endpoint: either an
`HTTPException` or an unhandled Python exception (kept as its message). -/
inductive BodyErr where
  | httpExc (status : ℕ) (detail : String)
  | exc (msg : String)
deriving DecidableEq

/-- What `str(e)` yields in the outer `except` block: starlette's
`HTTPException.__str__` is `"{status_code}: {detail}"`. -/
def errStr : BodyErr → String
  | .httpExc s d => toString s ++ ": " ++ d
  | .exc m => m

/-- The body of the `try` block of `analyze_brand` (src/backend/main.py,
lines 134-256), starting from the already scraped tweets: an empty
scrape raises an `HTTPException(404, ...)`, and a failing sub-model
exception escapes the loop. -/
def analyze_brand_body (pol comp : String → Except String ℚ) (query : String)
    (tweets : List TweetIn) : Except BodyErr SentimentResponse :=
  let q : String := ⟨stripChars query.data⟩
  if tweets.isEmpty then
    .error (.httpExc 404 ("No tweets found for '" ++ q ++ "'. Try a different search term."))
  else
    match scoreAll pol comp tweets with
    | .error e => .error (.exc e)
    | .ok scored => .ok (buildResponse q tweets scored)

/-- `analyze_brand` (src/backend/main.py, lines 130-263): any exception
raised inside the `try` block — including the 404 `HTTPException` —
is caught by `except Exception` and re-raised as
`HTTPException(500, "Error analyzing sentiment: " + str(e))`. -/
def analyze_brand (pol comp : String → Except String ℚ) (query : String)
    (tweets : List TweetIn) : Except BodyErr SentimentResponse :=
  match analyze_brand_body pol comp query tweets with
  | .ok r => .ok r
  | .error e => .error (.httpExc 500 ("Error analyzing sentiment: " ++ errStr e))

/-! ### App aggregation -/

/-- The summary metrics the app computes from its results dataframe
(src/app.py, lines 248-264). -/
structure AppMetrics where
  total_tweets : ℕ
  avg_sentiment : ℚ
  positive_pct : ℚ
  neutral_pct : ℚ
  negative_pct : ℚ
  overall : String
deriving DecidableEq

/-- Score each non-empty-text post in order (src/app.py, lines 226-240);
an uncaught exception aborts the run. -/
def appScoreAll (pol comp : String → Except String ℚ) :
    List TweetIn → Except String (List (ℚ × String × String))
  | [] => .ok []
  | t :: ts =>
    if t.text.data.isEmpty then appScoreAll pol comp ts
    else
      match app_analyze_sentiment pol comp t.text with
      | .error e => .error e
      | .ok s =>
        match appScoreAll pol comp ts with
        | .error e => .error e
        | .ok ss => .ok (s :: ss)

/-- The app's analyze-button run from the generated posts to the summary
metrics (src/app.py, lines 215-264): an empty post collection stops with
"No data available ..." (line 221-223), an empty result list stops with
"Could not analyze data ..." (lines 242-244). -/
def app_run (pol comp : String → Except String ℚ) (query : String)
    (tweets : List TweetIn) : Except String AppMetrics :=
  if tweets.isEmpty then
    .error ("No data available for " ++ query ++ ". Try a different search term.")
  else
    match appScoreAll pol comp tweets with
    | .error e => .error e
    | .ok results =>
      if results.isEmpty then .error ("Could not analyze data. Please try again.")
      else
        let total_tweets := results.length
        let avg_sentiment : ℚ := (results.map (fun r => r.1)).sum / total_tweets
        let positive_pct : ℚ := (results.countP (fun r => r.2.1 == "Positive") : ℚ) / total_tweets * 100
        let neutral_pct : ℚ := (results.countP (fun r => r.2.1 == "Neutral") : ℚ) / total_tweets * 100
        let negative_pct : ℚ := (results.countP (fun r => r.2.1 == "Negative") : ℚ) / total_tweets * 100
        let overall :=
          if avg_sentiment > 1 / 20 then ("Positive")
          else if avg_sentiment < -(1 / 20) then ("Negative")
          else ("Neutral")
        .ok { total_tweets := total_tweets
              avg_sentiment := avg_sentiment
              positive_pct := positive_pct
              neutral_pct := neutral_pct
              negative_pct := negative_pct
              overall := overall }

/-- Modelled from the spec: the overall label the spec contrasts against —
"a majority vote of per-post labels" / "most common per-post label"
(spec sections 4.4 and `NOT from a majority vote`).  The most frequent
label, ties broken by first occurrence; `Neutral` for an empty list. -/
def majorityLabel (labels : List String) : String :=
  match most_common 1 labels with
  | [] => ("Neutral")
  | p :: _ => p.1


/-! ### Whitespace structure lemmas -/

theorem wsGo_cons (b : Bool) (c : Char) (cs : List Char) :
    wsGo b (c :: cs) =
      if pyIsSpace c then (if b then wsGo true cs else ' ' :: wsGo true cs)
      else c :: wsGo false cs := rfl

theorem wsGo_true_head : ∀ {cs : List Char} {d : Char},
    (wsGo true cs).head? = some d → pyIsSpace d = false := by
  intro cs
  induction cs with
  | nil => intro d h; simp [wsGo] at h
  | cons e es ih =>
    intro d h
    rw [wsGo_cons] at h
    by_cases he : pyIsSpace e
    · simp only [he, if_true] at h
      exact ih h
    · simp only [he, if_false, Bool.false_eq_true] at h
      simp only [List.head?_cons, Option.some.injEq] at h
      subst h
      simpa using he

theorem chain_wsGo : ∀ (cs : List Char) (b : Bool), (wsGo b cs).Chain' NoWsPair := by
  intro cs
  induction cs with
  | nil => intro b; simp [wsGo]
  | cons c cs ih =>
    intro b
    rw [wsGo_cons]
    by_cases hc : pyIsSpace c
    · simp only [hc, if_true]
      cases b with
      | true =>
        rw [if_pos rfl]
        exact ih true
      | false =>
        rw [if_neg (by simp)]
        rw [List.chain'_cons']
        refine ⟨fun y hy => ?_, ih true⟩
        have : pyIsSpace y = false := wsGo_true_head hy
        exact fun hp => by simp [this] at hp
    · simp only [hc, Bool.false_eq_true, if_false]
      rw [List.chain'_cons']
      refine ⟨fun y _ => fun hp => ?_, ih false⟩
      simp [hc] at hp

theorem mem_wsGo : ∀ (cs : List Char) (b : Bool) (c : Char),
    c ∈ wsGo b cs → pyIsSpace c = true → c = ' ' := by
  intro cs
  induction cs with
  | nil => intro b c h; simp [wsGo] at h
  | cons d ds ih =>
    intro b c h hws
    rw [wsGo_cons] at h
    by_cases hd : pyIsSpace d
    · simp only [hd, if_true] at h
      cases b with
      | true => exact ih true c h hws
      | false =>
        rcases List.mem_cons.1 h with h1 | h1
        · exact h1
        · exact ih true c h1 hws
    · simp only [hd, Bool.false_eq_true, if_false] at h
      rcases List.mem_cons.1 h with h1 | h1
      · subst h1; exact absurd hws (by simpa using hd)
      · exact ih false c h1 hws

theorem wsGo_true_eq_false {cs : List Char}
    (h : ∀ d, cs.head? = some d → pyIsSpace d = false) :
    wsGo true cs = wsGo false cs := by
  cases cs with
  | nil => rfl
  | cons d ds =>
    have hd := h d rfl
    rw [wsGo_cons, wsGo_cons, if_neg (by simp [hd]), if_neg (by simp [hd])]

theorem wsGo_false_fixed : ∀ (l : List Char),
    (∀ c ∈ l, pyIsSpace c = true → c = ' ') → l.Chain' NoWsPair →
    wsGo false l = l := by
  intro l
  induction l with
  | nil => intro _ _; rfl
  | cons c cs ih =>
    intro hmem hchain
    rw [wsGo_cons]
    by_cases hc : pyIsSpace c
    · have hc' : c = ' ' := hmem c (List.mem_cons_self c cs) hc
      simp only [hc, if_true]
      have hcs : wsGo true cs = cs := by
        cases cs with
        | nil => rfl
        | cons d ds =>
          have hrel : NoWsPair c d := (List.chain'_cons.1 hchain).1
          have hd : pyIsSpace d = false := by
            by_contra hd
            exact hrel ⟨hc, by simpa using hd⟩
          rw [wsGo_true_eq_false (fun e he => by
            simp only [List.head?_cons, Option.some.injEq] at he
            subst he; exact hd)]
          exact ih (fun e he hw => hmem e (List.mem_cons_of_mem _ he) hw)
            (List.Chain'.tail hchain)
      rw [hcs, hc']
      simp
    · simp only [hc, Bool.false_eq_true, if_false]
      rw [ih (fun e he hw => hmem e (List.mem_cons_of_mem _ he) hw)
        (List.Chain'.tail hchain)]

/-! ### Strip lemmas -/

theorem stripChars_eq : ∀ l : List Char,
    stripChars l = List.rdropWhile pyIsSpace (List.dropWhile pyIsSpace l) := by
  intro l; rfl

theorem head?_of_rdropWhile {α : Type} {p : α → Bool} {l : List α} {c : α}
    (h : (List.rdropWhile p l).head? = some c) : l.head? = some c := by
  obtain ⟨s, hs⟩ :=
    (List.dropWhile_suffix p : List.dropWhile p l.reverse <:+ l.reverse)
  have hl : l = List.rdropWhile p l ++ s.reverse := by
    have h2 := congrArg List.reverse hs
    simpa [List.rdropWhile, List.reverse_append] using h2.symm
  rw [hl, List.head?_append, h]
  rfl

theorem head?_dropWhile_eq_false {α : Type} {p : α → Bool} {l : List α} {c : α}
    (h : (List.dropWhile p l).head? = some c) : p c = false := by
  have h2 := List.head?_dropWhile_not p l
  rw [h] at h2
  exact h2

theorem strip_head_not {l : List Char} {c : Char}
    (h : (stripChars l).head? = some c) : pyIsSpace c = false := by
  rw [stripChars_eq] at h
  exact head?_dropWhile_eq_false (head?_of_rdropWhile h)

theorem strip_getLast_not {l : List Char} {c : Char}
    (h : (stripChars l).getLast? = some c) : pyIsSpace c = false := by
  have h2 : ((trimL l).reverse.dropWhile pyIsSpace).head? = some c := by
    rw [← List.getLast?_reverse]
    simpa [stripChars] using h
  exact head?_dropWhile_eq_false h2

theorem strip_subset {l : List Char} {c : Char} (h : c ∈ stripChars l) : c ∈ l := by
  simp only [stripChars, List.mem_reverse] at h
  have h1 : c ∈ (trimL l).reverse := List.dropWhile_sublist _ |>.subset h
  rw [List.mem_reverse] at h1
  exact List.dropWhile_sublist _ |>.subset h1

theorem noWsPair_symm {a b : Char} (h : NoWsPair a b) : NoWsPair b a :=
  fun hp => h ⟨hp.2, hp.1⟩

theorem chain_reverse_of_chain {l : List Char} (h : l.Chain' NoWsPair) :
    l.reverse.Chain' NoWsPair :=
  List.chain'_reverse.2 (h.imp (fun _ _ hab => noWsPair_symm hab))

theorem strip_chain {l : List Char} (h : l.Chain' NoWsPair) :
    (stripChars l).Chain' NoWsPair := by
  have h1 : (trimL l).Chain' NoWsPair := h.suffix (List.dropWhile_suffix _)
  have h2 : ((trimL l).reverse.dropWhile pyIsSpace).Chain' NoWsPair :=
    (chain_reverse_of_chain h1).suffix (List.dropWhile_suffix _)
  exact chain_reverse_of_chain h2

theorem strip_idem (l : List Char) : stripChars (stripChars l) = stripChars l := by
  rw [stripChars_eq, stripChars_eq l]
  have hA : List.dropWhile pyIsSpace (List.rdropWhile pyIsSpace (List.dropWhile pyIsSpace l)) =
      List.rdropWhile pyIsSpace (List.dropWhile pyIsSpace l) := by
    cases h : List.rdropWhile pyIsSpace (List.dropWhile pyIsSpace l) with
    | nil => rfl
    | cons d ds =>
      have hd : pyIsSpace d = false := by
        have h1 : (List.rdropWhile pyIsSpace (List.dropWhile pyIsSpace l)).head? = some d := by
          rw [h]; rfl
        exact head?_dropWhile_eq_false (head?_of_rdropWhile h1)
      rw [List.dropWhile_cons, hd]
      simp
  rw [hA, List.rdropWhile_idempotent]

theorem string_mk_data (s : String) : (⟨s.data⟩ : String) = s := by
  cases s
  rfl

theorem clean_tweet_chain (s : String) : (clean_tweet s).data.Chain' NoWsPair :=
  strip_chain (chain_wsGo (removeRT (removeUrls s.data)) false)

theorem clean_tweet_ws_space (s : String) :
    ∀ c ∈ (clean_tweet s).data, pyIsSpace c = true → c = ' ' := fun c hc hw =>
  mem_wsGo (removeRT (removeUrls s.data)) false c (strip_subset hc) hw

/-! ### Scoring-loop lemmas -/

theorem scoreAll_ok_length {pol comp : String → Except String ℚ} :
    ∀ {ts : List TweetIn} {ss : List (ℚ × String)},
      scoreAll pol comp ts = .ok ss → ss.length = ts.length := by
  intro ts
  induction ts with
  | nil =>
    intro ss h
    simp only [scoreAll, Except.ok.injEq] at h
    subst h
    rfl
  | cons t ts ih =>
    intro ss h
    simp only [scoreAll] at h
    cases ha : analyze_sentiment pol comp t.text with
    | error e => rw [ha] at h; simp at h
    | ok s =>
      rw [ha] at h
      cases hb : scoreAll pol comp ts with
      | error e => rw [hb] at h; simp at h
      | ok ss' =>
        rw [hb] at h
        simp only [Except.ok.injEq] at h
        subst h
        simp [ih hb]

theorem scoreAll_ok_get {pol comp : String → Except String ℚ} :
    ∀ {ts : List TweetIn} {ss : List (ℚ × String)},
      scoreAll pol comp ts = .ok ss →
      ∀ i (h1 : i < ts.length) (h2 : i < ss.length),
        analyze_sentiment pol comp ((ts.get ⟨i, h1⟩).text) = .ok (ss.get ⟨i, h2⟩) := by
  intro ts
  induction ts with
  | nil => intro ss h i h1 h2; simp at h1
  | cons t ts ih =>
    intro ss h i h1 h2
    simp only [scoreAll] at h
    cases ha : analyze_sentiment pol comp t.text with
    | error e => rw [ha] at h; simp at h
    | ok s =>
      rw [ha] at h
      cases hb : scoreAll pol comp ts with
      | error e => rw [hb] at h; simp at h
      | ok ss' =>
        rw [hb] at h
        simp only [Except.ok.injEq] at h
        subst h
        cases i with
        | zero => simpa using ha
        | succ j =>
          have h1' : j < ts.length := by simpa using h1
          have h2' : j < ss'.length := by simpa using h2
          simpa using ih hb j h1' h2'

theorem scoreAll_error_of_mem {pol : String → Except String ℚ} {msg : String} :
    ∀ {ts : List TweetIn}, (∃ t ∈ ts, clean_tweet t.text ≠ "") →
      ∃ e, scoreAll pol (fun _ => .error msg) ts = .error e := by
  intro ts
  induction ts with
  | nil => intro h; simp at h
  | cons t ts ih =>
    intro h
    simp only [scoreAll]
    by_cases hc : clean_tweet t.text = ""
    · have hone : analyze_sentiment pol (fun _ => .error msg) t.text = .ok (0, ("Neutral")) := by
        unfold analyze_sentiment
        rw [hc]
        rfl
      rw [hone]
      have hex : ∃ t ∈ ts, clean_tweet t.text ≠ "" := by
        rcases h with ⟨u, hu, hne⟩
        rcases List.mem_cons.1 hu with h1 | h1
        · subst h1; exact absurd hc hne
        · exact ⟨u, h1, hne⟩
      obtain ⟨e, he⟩ := ih hex
      rw [he]
      exact ⟨e, rfl⟩
    · have hdata : (clean_tweet t.text).data ≠ [] := fun hd => hc (by
        have h2 := string_mk_data (clean_tweet t.text)
        rw [← h2, hd])
      have hempty : (clean_tweet t.text).data.isEmpty = false := by
        cases hd : (clean_tweet t.text).data with
        | nil => exact absurd hd hdata
        | cons a l => rfl
      have hone : analyze_sentiment pol (fun _ => .error msg) t.text = .error msg := by
        simp only [analyze_sentiment, hempty, Bool.false_eq_true, if_false]
      rw [hone]
      exact ⟨msg, rfl⟩

theorem appScoreAll_all_empty {pol comp : String → Except String ℚ} :
    ∀ {ts : List TweetIn}, (∀ t ∈ ts, t.text = "") →
      appScoreAll pol comp ts = .ok [] := by
  intro ts
  induction ts with
  | nil => intro _; rfl
  | cons t ts ih =>
    intro h
    have ht : t.text = "" := h t (List.mem_cons_self t ts)
    simp only [appScoreAll, ht]
    exact ih (fun u hu => h u (List.mem_cons_of_mem _ hu))

/-! ### Counting lemmas -/

theorem countP_three (l : List String) :
    l.countP (fun s => s == "Positive") +
    l.countP (fun s => !(s == "Positive") && !(s == "Negative")) +
    l.countP (fun s => !(s == "Positive") && s == "Negative") = l.length := by
  induction l with
  | nil => rfl
  | cons a l ih =>
    simp only [List.countP_cons, List.length_cons]
    by_cases h1 : (a == "Positive") = true
    · simp only [h1]
      simp
      omega
    · have h1' : (a == "Positive") = false := by simpa using h1
      by_cases h2 : (a == "Negative") = true
      · simp only [h1', h2]
        simp
        omega
      · have h2' : (a == "Negative") = false := by simpa using h2
        simp only [h1', h2']
        simp
        omega

/-! ### Rounding lemmas -/

theorem ratFloor_eq_intFloor (q : ℚ) : Rat.floor q = ⌊q⌋ := by
  rw [Rat.floor_def', Rat.floor_def]

theorem halfEven_dist (q : ℚ) : |((halfEven q : ℤ) : ℚ) - q| ≤ 1 / 2 := by
  unfold halfEven
  rw [ratFloor_eq_intFloor]
  have h1 : ((⌊q⌋ : ℤ) : ℚ) ≤ q := Int.floor_le q
  have h2 : q < (⌊q⌋ : ℤ) + 1 := Int.lt_floor_add_one q
  split_ifs with ha hb hc
  · rw [abs_le]
    constructor <;> linarith
  · rw [abs_le]
    push_cast
    constructor <;> linarith
  · rw [abs_le]
    constructor <;> linarith
  · rw [abs_le]
    push_cast
    constructor <;> linarith

theorem pyRound_one_dist (q : ℚ) : |pyRound q 1 - q| ≤ 1 / 20 := by
  have h := halfEven_dist (q * 10 ^ 1)
  have h10 : ((10 : ℚ) ^ 1) ≠ 0 := by norm_num
  have heq : pyRound q 1 - q = (((halfEven (q * 10 ^ 1) : ℤ) : ℚ) - q * 10 ^ 1) / 10 ^ 1 := by
    unfold pyRound
    field_simp
    ring
  rw [heq, abs_div]
  have habs : |((10 : ℚ) ^ 1)| = 10 := by norm_num
  rw [habs]
  linarith [h]

/-! ### Zip and response-field lemmas -/

theorem zip_length_eq {ts : List TweetIn} {ss : List (ℚ × String)}
    (hlen : ss.length = ts.length) : (ts.zip ss).length = ts.length := by
  rw [List.length_zip, hlen, Nat.min_self]

theorem zip_map_score {ts : List TweetIn} {ss : List (ℚ × String)}
    (hlen : ss.length = ts.length) :
    (ts.zip ss).map (fun p => p.2.1) = ss.map Prod.fst := by
  have h := List.map_snd_zip ts ss (le_of_eq hlen)
  calc (ts.zip ss).map (fun p => p.2.1)
      = ((ts.zip ss).map Prod.snd).map Prod.fst := by rw [List.map_map]; rfl
    _ = ss.map Prod.fst := by rw [h]

theorem zip_countP_labels {ts : List TweetIn} {ss : List (ℚ × String)}
    (hlen : ss.length = ts.length) (p : String → Bool) :
    ((ts.zip ss).map (fun pr => pr.2.2)).countP p = ss.countP (fun s => p s.2) := by
  have h := List.map_snd_zip ts ss (le_of_eq hlen)
  calc ((ts.zip ss).map (fun pr => pr.2.2)).countP p
      = (((ts.zip ss).map Prod.snd).map Prod.snd).countP p := by rw [List.map_map]; rfl
    _ = (ss.map Prod.snd).countP p := by rw [h]
    _ = ss.countP (fun s => p s.2) := by rw [List.countP_map]; rfl

theorem buildResponse_counts (q : String) (ts : List TweetIn) (ss : List (ℚ × String)) :
    (buildResponse q ts ss).positive_count =
      ((ts.zip ss).map (fun p => p.2.2)).countP (fun l => l == "Positive") ∧
    (buildResponse q ts ss).neutral_count =
      ((ts.zip ss).map (fun p => p.2.2)).countP (fun l => !(l == "Positive") && !(l == "Negative")) ∧
    (buildResponse q ts ss).negative_count =
      ((ts.zip ss).map (fun p => p.2.2)).countP (fun l => !(l == "Positive") && l == "Negative") ∧
    (buildResponse q ts ss).total_tweets = (ts.zip ss).length :=
  ⟨rfl, rfl, rfl, rfl⟩

theorem buildResponse_pcts (q : String) (ts : List TweetIn) (ss : List (ℚ × String)) :
    (buildResponse q ts ss).positive_percentage =
      pyRound (((buildResponse q ts ss).positive_count : ℚ) / ((ts.zip ss).length : ℚ) * 100) 1 ∧
    (buildResponse q ts ss).neutral_percentage =
      pyRound (((buildResponse q ts ss).neutral_count : ℚ) / ((ts.zip ss).length : ℚ) * 100) 1 ∧
    (buildResponse q ts ss).negative_percentage =
      pyRound (((buildResponse q ts ss).negative_count : ℚ) / ((ts.zip ss).length : ℚ) * 100) 1 :=
  ⟨rfl, rfl, rfl⟩

theorem buildResponse_tweets (q : String) (ts : List TweetIn) (ss : List (ℚ × String)) :
    (buildResponse q ts ss).tweets = ((ts.zip ss).map (fun p =>
      ({ text := ⟨p.1.text.data.take 280⟩
         created_at := p.1.date
         sentiment_score := pyRound p.2.1 3
         sentiment_label := p.2.2
         username := p.1.username
         likes := p.1.likes
         retweets := p.1.retweets } : TweetData))).take 50 := rfl

theorem buildResponse_overall {q : String} {ts : List TweetIn} {ss : List (ℚ × String)}
    (hne : ts ≠ []) (hlen : ss.length = ts.length) :
    (buildResponse q ts ss).overall_sentiment =
      (if 1 / 20 < (ss.map Prod.fst).sum / (ts.length : ℚ) then ("Positive")
       else if (ss.map Prod.fst).sum / (ts.length : ℚ) < -(1 / 20) then ("Negative")
       else ("Mixed/Neutral")) := by
  have h1 : (buildResponse q ts ss).overall_sentiment =
      (if (if (ts.zip ss).length > 0 then
            ((ts.zip ss).map (fun p => p.2.1)).sum / (((ts.zip ss).length : ℕ) : ℚ) else 0) >
          1 / 20 then ("Positive")
       else if (if (ts.zip ss).length > 0 then
            ((ts.zip ss).map (fun p => p.2.1)).sum / (((ts.zip ss).length : ℕ) : ℚ) else 0) <
          -(1 / 20) then ("Negative")
       else ("Mixed/Neutral")) := rfl
  rw [h1, zip_length_eq hlen, zip_map_score hlen,
    if_pos (List.length_pos.mpr hne)]

/-! ### Claim C6 -/

/-- C6: for every input text whose normalized form is empty (including
the empty string and whitespace-only strings), the scorer returns score
0.0 with label Neutral immediately, without invoking either sentiment
sub-model — for both the backend scorer and the app scorer: the result
is `(0, Neutral)` for arbitrary (even always-failing) sub-models. -/
theorem C6_empty_normalized_neutral (t : String) :
    (clean_tweet t = "" → ∀ pol comp : String → Except String ℚ,
      analyze_sentiment pol comp t = .ok (0, ("Neutral"))) ∧
    (clean_text t = "" → ∀ pol comp : String → Except String ℚ,
      app_analyze_sentiment pol comp t = .ok (0, ("Neutral"), (""))) := by
  constructor
  · intro h pol comp
    unfold analyze_sentiment
    rw [h]
    rfl
  · intro h pol comp
    unfold app_analyze_sentiment
    rw [h]
    rfl

/-- C6 witness: the scorers on a whitespace-only string and on the empty
string, with sub-models that always fail. -/
theorem C6_empty_normalized_neutral_witness :
    analyze_sentiment (fun _ => .error ("boom")) (fun _ => .error ("boom")) ("   ") =
      .ok (0, ("Neutral")) ∧
    app_analyze_sentiment (fun _ => .error ("boom")) (fun _ => .error ("boom")) ("   ") =
      .ok (0, ("Neutral"), ("")) ∧
    analyze_sentiment (fun _ => .error ("boom")) (fun _ => .error ("boom")) ("") =
      .ok (0, ("Neutral")) :=
  ⟨(C6_empty_normalized_neutral ("   ")).1 (by decide) _ _,
   (C6_empty_normalized_neutral ("   ")).2 (by decide) _ _,
   (C6_empty_normalized_neutral ("")).1 (by decide) _ _⟩

/-! ### Claim C7 -/

/-- C7 counterexample: normalization is not idempotent.  In
`"htRT tpx"`, removing the `RT ` marker splices together `"httpx"`,
which a second pass then removes as a URL, so
`normalize (normalize x) ≠ normalize x` (the same happens for the app's
`clean_text`). -/
theorem C7_not_idempotent_counterexample :
    clean_tweet ("htRT tpx") = ("httpx") ∧
    clean_tweet (clean_tweet ("htRT tpx")) = ("") ∧
    clean_tweet (clean_tweet ("htRT tpx")) ≠ clean_tweet ("htRT tpx") ∧
    clean_text (clean_text ("htRT tpx")) ≠ clean_text ("htRT tpx") := by
  refine ⟨by decide, by decide, by decide, by decide⟩

/-- C7 amended: normalization is idempotent on every input whose
normalized form is left unchanged by one more URL-removal and RT-removal
pass (and mention-removal pass, for the app variant); the whitespace
collapsing and stripping passes are always idempotent.  Removal can
splice together a new removable token, which is the only way idempotence
can fail. -/
theorem C7_idempotent_amended :
    (∀ x : String,
      removeUrls (clean_tweet x).data = (clean_tweet x).data →
      removeRT (clean_tweet x).data = (clean_tweet x).data →
      clean_tweet (clean_tweet x) = clean_tweet x) ∧
    (∀ x : String,
      removeUrls (clean_text x).data = (clean_text x).data →
      removeMentions (clean_text x).data = (clean_text x).data →
      removeRT (clean_text x).data = (clean_text x).data →
      clean_text (clean_text x) = clean_text x) := by
  constructor
  · intro x h1 h2
    show (⟨stripChars (collapseWs (removeRT (removeUrls (clean_tweet x).data)))⟩ : String) =
      clean_tweet x
    rw [h1, h2]
    have hcol : collapseWs (clean_tweet x).data = (clean_tweet x).data :=
      wsGo_false_fixed _ (clean_tweet_ws_space x) (clean_tweet_chain x)
    rw [hcol]
    have hstr : stripChars (clean_tweet x).data = (clean_tweet x).data :=
      strip_idem (collapseWs (removeRT (removeUrls x.data)))
    rw [hstr]
  · intro x h1 h2 h3
    show (⟨stripChars (removeRT (removeMentions (removeUrls (clean_text x).data)))⟩ : String) =
      clean_text x
    rw [h1, h2, h3]
    have hstr : stripChars (clean_text x).data = (clean_text x).data :=
      strip_idem (removeRT (removeMentions (removeUrls x.data)))
    rw [hstr]

/-- C7 witness: the amended idempotence applied to concrete inputs whose
normalized forms contain no residual removable token. -/
theorem C7_idempotent_amended_witness :
    clean_tweet (clean_tweet ("RT hello   world www.x.y ")) =
      clean_tweet ("RT hello   world www.x.y ") ∧
    clean_text (clean_text ("hi @bob RT check")) = clean_text ("hi @bob RT check") :=
  ⟨C7_idempotent_amended.1 ("RT hello   world www.x.y ") (by decide) (by decide),
   C7_idempotent_amended.2 ("hi @bob RT check") (by decide) (by decide) (by decide)⟩

/-! ### Claim C8 -/

/-- C8 counterexample: the app's `clean_text` does not collapse interior
whitespace — it only removes URLs/mentions/RT markers and strips the
ends — so its result can contain two consecutive whitespace characters. -/
theorem C8_app_keeps_double_space_counterexample :
    clean_text ("a  b") = ("a  b") ∧
    (clean_text ("a  b")).data = ['a', ' ', ' ', 'b'] ∧
    ¬ (clean_text ("a  b")).data.Chain' NoWsPair := by
  refine ⟨by decide, by decide, fun h => ?_⟩
  have hd : (clean_text ("a  b")).data = ['a', ' ', ' ', 'b'] := by decide
  rw [hd] at h
  exact (List.chain'_cons.1 (List.Chain'.tail h)).1 ⟨rfl, rfl⟩

/-- C8 amended: the backend's `clean_tweet` collapses every whitespace
run to a single space and trims the ends, so its result never contains
two consecutive whitespace characters, every whitespace character in it
is a plain space, and it neither starts nor ends with whitespace.  The
app's `clean_text` only trims the ends (its interior runs survive), so
for it only the two end conditions hold. -/
theorem C8_whitespace_collapsed_amended (s : String) :
    (clean_tweet s).data.Chain' NoWsPair ∧
    (∀ c ∈ (clean_tweet s).data, pyIsSpace c = true → c = ' ') ∧
    (∀ c, (clean_tweet s).data.head? = some c → pyIsSpace c = false) ∧
    (∀ c, (clean_tweet s).data.getLast? = some c → pyIsSpace c = false) ∧
    (∀ c, (clean_text s).data.head? = some c → pyIsSpace c = false) ∧
    (∀ c, (clean_text s).data.getLast? = some c → pyIsSpace c = false) :=
  ⟨clean_tweet_chain s, clean_tweet_ws_space s,
   fun _ h => strip_head_not h, fun _ h => strip_getLast_not h,
   fun _ h => strip_head_not h, fun _ h => strip_getLast_not h⟩

/-- C8 witness: the amended statement evaluated on a concrete input with
leading, interior and trailing whitespace runs. -/
theorem C8_whitespace_collapsed_amended_witness :
    clean_tweet ("  a \t b ") = ("a b") ∧
    (clean_tweet ("  a \t b ")).data.Chain' NoWsPair ∧
    pyIsSpace 'a' = false ∧ pyIsSpace 'b' = false :=
  ⟨by decide,
   (C8_whitespace_collapsed_amended ("  a \t b ")).1,
   (C8_whitespace_collapsed_amended ("  a \t b ")).2.2.1 'a' (by decide),
   (C8_whitespace_collapsed_amended ("  a \t b ")).2.2.2.1 'b' (by decide)⟩

/-! ### Claim C1 -/

/-- C1 counterexample: the backend report's overall label at mean score 0
is the string `Mixed/Neutral`, not the per-post label `Neutral` that the
claim's "same three-way thresholds as per-post labeling (... otherwise
Neutral)" requires. -/
theorem C1_overall_label_counterexample :
    (analyze_brand (fun _ => .ok 0) (fun _ => .ok 0) ("q")
        [{ text := ("meh"), date := 1, username := ("u"), likes := 2, retweets := 3 }]).map
      (fun r => r.overall_sentiment) = .ok ("Mixed/Neutral") ∧
    analyze_sentiment (fun _ => .ok 0) (fun _ => .ok 0) ("meh") = .ok (0, ("Neutral")) ∧
    ("Mixed/Neutral" : String) ≠ ("Neutral") := by
  refine ⟨?_, ?_, ?_⟩ <;> with_unfolding_all decide

/-- C1 amended: for every non-empty scored collection the overall label
is derived from the mean of the per-post scores using the per-post
thresholds (`> 0.05` Positive, `< -0.05` Negative), with the else branch
labelled `Mixed/Neutral` in the backend and `Neutral` in the app — and it
is not a majority vote of per-post labels (a collection exists on which
the two disagree). -/
theorem C1_overall_from_mean_amended :
    (∀ (pol comp : String → Except String ℚ) (q : String) (ts : List TweetIn)
        (ss : List (ℚ × String)), ts ≠ [] → scoreAll pol comp ts = .ok ss →
      ∃ r, analyze_brand pol comp q ts = .ok r ∧
        r.overall_sentiment =
          (if 1 / 20 < (ss.map Prod.fst).sum / (ts.length : ℚ) then ("Positive")
           else if (ss.map Prod.fst).sum / (ts.length : ℚ) < -(1 / 20) then ("Negative")
           else ("Mixed/Neutral"))) ∧
    (∀ (pol comp : String → Except String ℚ) (q : String) (ts : List TweetIn)
        (rs : List (ℚ × String × String)), appScoreAll pol comp ts = .ok rs → rs ≠ [] →
      ∃ m, app_run pol comp q ts = .ok m ∧
        m.overall =
          (if 1 / 20 < (rs.map (fun v => v.1)).sum / (rs.length : ℚ) then ("Positive")
           else if (rs.map (fun v => v.1)).sum / (rs.length : ℚ) < -(1 / 20) then ("Negative")
           else ("Neutral"))) ∧
    ((buildResponse ("q")
        [{ text := ("a"), date := 0, username := ("u"), likes := 0, retweets := 0 },
         { text := ("b"), date := 0, username := ("u"), likes := 0, retweets := 0 },
         { text := ("c"), date := 0, username := ("u"), likes := 0, retweets := 0 }]
        [(9 / 10, ("Positive")), (0, ("Neutral")), (0, ("Neutral"))]).overall_sentiment =
        ("Positive") ∧
      majorityLabel [("Positive"), ("Neutral"), ("Neutral")] = ("Neutral")) := by
  refine ⟨?_, ?_, ?_, ?_⟩
  · intro pol comp q ts ss hne hss
    have hts : ts.isEmpty = false := List.isEmpty_eq_false.mpr hne
    refine ⟨buildResponse (⟨stripChars q.data⟩ : String) ts ss, ?_, ?_⟩
    · simp only [analyze_brand, analyze_brand_body, hts, Bool.false_eq_true, if_false, hss]
    · exact buildResponse_overall hne (scoreAll_ok_length hss)
  · intro pol comp q ts rs hss hrs
    have hne : ts ≠ [] := by
      intro hcon
      subst hcon
      have h0 : appScoreAll pol comp ([] : List TweetIn) = .ok [] := rfl
      rw [h0] at hss
      simp only [Except.ok.injEq] at hss
      exact hrs hss.symm
    have hts : ts.isEmpty = false := List.isEmpty_eq_false.mpr hne
    have hrs' : rs.isEmpty = false := List.isEmpty_eq_false.mpr hrs
    have happ : app_run pol comp q ts = .ok
        { total_tweets := rs.length
          avg_sentiment := (rs.map (fun v => v.1)).sum / (rs.length : ℚ)
          positive_pct := (rs.countP (fun v => v.2.1 == "Positive") : ℚ) / (rs.length : ℚ) * 100
          neutral_pct := (rs.countP (fun v => v.2.1 == "Neutral") : ℚ) / (rs.length : ℚ) * 100
          negative_pct := (rs.countP (fun v => v.2.1 == "Negative") : ℚ) / (rs.length : ℚ) * 100
          overall :=
            if (rs.map (fun v => v.1)).sum / (rs.length : ℚ) > 1 / 20 then ("Positive")
            else if (rs.map (fun v => v.1)).sum / (rs.length : ℚ) < -(1 / 20) then ("Negative")
            else ("Neutral") } := by
      simp only [app_run, hts, Bool.false_eq_true, if_false, hss, hrs']
    exact ⟨_, happ, rfl⟩
  · with_unfolding_all decide
  · with_unfolding_all decide

/-- C1 witness: the amended statement applied to a concrete one-post
collection (backend) and a concrete run (app). -/
theorem C1_overall_from_mean_amended_witness :
    (∃ r, analyze_brand (fun _ => .ok 0) (fun _ => .ok (1 : ℚ)) ("q")
        [{ text := ("meh"), date := 1, username := ("u"), likes := 2, retweets := 3 }] = .ok r ∧
      r.overall_sentiment =
        (if 1 / 20 < (([((7 : ℚ) / 10, ("Positive"))].map Prod.fst).sum / ((1 : ℕ) : ℚ)) then ("Positive")
         else if (([((7 : ℚ) / 10, ("Positive"))].map Prod.fst).sum / ((1 : ℕ) : ℚ)) < -(1 / 20) then ("Negative")
         else ("Mixed/Neutral"))) ∧
    (∃ m, app_run (fun _ => .ok 0) (fun _ => .ok (1 : ℚ)) ("q")
        [{ text := ("meh"), date := 1, username := ("u"), likes := 2, retweets := 3 }] = .ok m ∧
      m.overall =
        (if 1 / 20 < (([((7 : ℚ) / 10, ("Positive"), (""))].map (fun v => v.1)).sum / ((1 : ℕ) : ℚ)) then ("Positive")
         else if (([((7 : ℚ) / 10, ("Positive"), (""))].map (fun v => v.1)).sum / ((1 : ℕ) : ℚ)) < -(1 / 20) then ("Negative")
         else ("Neutral"))) :=
  ⟨C1_overall_from_mean_amended.1 (fun _ => .ok 0) (fun _ => .ok (1 : ℚ)) ("q")
      [{ text := ("meh"), date := 1, username := ("u"), likes := 2, retweets := 3 }]
      [((7 : ℚ) / 10, ("Positive"))] (by decide) (by with_unfolding_all decide),
   C1_overall_from_mean_amended.2.1 (fun _ => .ok 0) (fun _ => .ok (1 : ℚ)) ("q")
      [{ text := ("meh"), date := 1, username := ("u"), likes := 2, retweets := 3 }]
      [((7 : ℚ) / 10, ("Positive"), (""))] (by with_unfolding_all decide) (by decide)⟩

/-! ### Claim C2 -/

set_option maxRecDepth 10000 in
/-- C2 counterexample: the empty-input failure is not surfaced to the
caller as a distinct error kind.  The dedicated `HTTPException(404)` is
swallowed by the blanket `except Exception` and re-raised as a generic
500 — the same status and wrapper as any unrelated failure (here: a
sub-model exception) — so the caller can tell the empty-input case apart
only by reading the embedded message text, never by a distinct error
status or type. -/
theorem C2_no_distinct_error_counterexample :
    analyze_brand (fun _ => .ok 0) (fun _ => .ok 0) ("q") [] =
      .error (.httpExc 500
        ("Error analyzing sentiment: 404: No tweets found for \x27q\x27. Try a different search term.")) ∧
    (∀ d, analyze_brand (fun _ => .ok 0) (fun _ => .ok 0) ("q") [] ≠
      .error (.httpExc 404 d)) ∧
    analyze_brand (fun _ => .ok 0) (fun _ => .error ("submodel boom")) ("q")
        [{ text := ("good"), date := 0, username := ("u"), likes := 0, retweets := 0 }] =
      .error (.httpExc 500 ("Error analyzing sentiment: submodel boom")) := by
  have h1 : analyze_brand (fun _ => .ok 0) (fun _ => .ok 0) ("q") [] =
      .error (.httpExc 500
        ("Error analyzing sentiment: 404: No tweets found for \x27q\x27. Try a different search term.")) :=
    rfl
  refine ⟨h1, ?_, ?_⟩
  · intro d hd
    rw [h1] at hd
    simp at hd
  · with_unfolding_all decide

/-- C2 amended: aggregation is never invoked on an empty collection and
no partial report is produced for such a run, but the failure is
distinct only in its message text, not as an error kind.  In the
backend, an empty scrape raises the dedicated `HTTPException(404, "No
tweets found ...")` before any scoring or aggregation, and the blanket
`except Exception` handler re-surfaces it as a generic 500 whose detail
embeds that message.  In the app, an empty post collection stops the run
with "No data available ...", and a collection in which no post survives
the non-empty-text filter stops it with "Could not analyze data ...". -/
theorem C2_empty_input_error (pol comp : String → Except String ℚ) (q : String) :
    analyze_brand pol comp q [] =
      .error (.httpExc 500 (("Error analyzing sentiment: 404: No tweets found for \x27") ++
        (⟨stripChars q.data⟩ : String) ++ ("\x27. Try a different search term."))) ∧
    (∀ r, analyze_brand pol comp q [] ≠ .ok r) ∧
    app_run pol comp q [] =
      .error (("No data available for ") ++ q ++ (". Try a different search term.")) ∧
    (∀ ts : List TweetIn, ts ≠ [] → (∀ t ∈ ts, t.text = "") →
      app_run pol comp q ts = .error ("Could not analyze data. Please try again.")) := by
  have h1 : analyze_brand pol comp q [] =
      .error (.httpExc 500 (("Error analyzing sentiment: 404: No tweets found for \x27") ++
        (⟨stripChars q.data⟩ : String) ++ ("\x27. Try a different search term."))) := rfl
  refine ⟨h1, ?_, rfl, ?_⟩
  · intro r hr
    rw [h1] at hr
    simp at hr
  · intro ts hne hall
    have hts : ts.isEmpty = false := List.isEmpty_eq_false.mpr hne
    simp only [app_run, hts, Bool.false_eq_true, if_false, appScoreAll_all_empty hall]
    rfl

/-- C2 witness: both guards at concrete inputs. -/
theorem C2_empty_input_error_witness :
    analyze_brand (fun _ => .ok 0) (fun _ => .ok 0) ("Tesla") [] =
      .error (.httpExc 500
        ("Error analyzing sentiment: 404: No tweets found for \x27Tesla\x27. Try a different search term.")) ∧
    app_run (fun _ => .ok 0) (fun _ => .ok 0) ("Tesla")
        [{ text := (""), date := 0, username := ("u"), likes := 0, retweets := 0 }] =
      .error ("Could not analyze data. Please try again.") :=
  ⟨(C2_empty_input_error (fun _ => .ok 0) (fun _ => .ok 0) ("Tesla")).1,
   (C2_empty_input_error (fun _ => .ok 0) (fun _ => .ok 0) ("Tesla")).2.2.2
      [{ text := (""), date := 0, username := ("u"), likes := 0, retweets := 0 }]
      (by decide) (by decide)⟩

/-! ### Claim C3 -/

/-- C3: for every non-empty scored collection the backend report
satisfies `positive_count + neutral_count + negative_count =
total_tweets`, the three exact percentages `count / total * 100` sum to
exactly 100, and the three rounded percentages stored in the response
sum to 100 within rounding tolerance (each rounding to one decimal moves
a value by at most 1/20). -/
theorem C3_count_percentage_invariants (q : String) (ts : List TweetIn)
    (ss : List (ℚ × String)) (hne : ts ≠ []) (hlen : ss.length = ts.length) :
    (buildResponse q ts ss).positive_count + (buildResponse q ts ss).neutral_count +
        (buildResponse q ts ss).negative_count = (buildResponse q ts ss).total_tweets ∧
    (((buildResponse q ts ss).positive_count : ℚ) / ((buildResponse q ts ss).total_tweets : ℚ) * 100 +
      ((buildResponse q ts ss).neutral_count : ℚ) / ((buildResponse q ts ss).total_tweets : ℚ) * 100 +
      ((buildResponse q ts ss).negative_count : ℚ) / ((buildResponse q ts ss).total_tweets : ℚ) * 100 = 100) ∧
    |(buildResponse q ts ss).positive_percentage + (buildResponse q ts ss).neutral_percentage +
      (buildResponse q ts ss).negative_percentage - 100| ≤ 3 / 20 := by
  obtain ⟨hp, hn, hg, htot⟩ := buildResponse_counts q ts ss
  obtain ⟨hpp, hnp, hgp⟩ := buildResponse_pcts q ts ss
  have hsum : (buildResponse q ts ss).positive_count + (buildResponse q ts ss).neutral_count +
      (buildResponse q ts ss).negative_count = (buildResponse q ts ss).total_tweets := by
    rw [hp, hn, hg, htot]
    rw [countP_three]
    rw [List.length_map]
  have hT : ((buildResponse q ts ss).total_tweets : ℚ) ≠ 0 := by
    rw [htot, zip_length_eq hlen]
    exact_mod_cast Nat.pos_iff_ne_zero.mp (List.length_pos.mpr hne)
  have hcast : ((buildResponse q ts ss).positive_count : ℚ) +
      ((buildResponse q ts ss).neutral_count : ℚ) +
      ((buildResponse q ts ss).negative_count : ℚ) =
      ((buildResponse q ts ss).total_tweets : ℚ) := by
    exact_mod_cast hsum
  have hpcts : (((buildResponse q ts ss).positive_count : ℚ) / ((buildResponse q ts ss).total_tweets : ℚ) * 100 +
      ((buildResponse q ts ss).neutral_count : ℚ) / ((buildResponse q ts ss).total_tweets : ℚ) * 100 +
      ((buildResponse q ts ss).negative_count : ℚ) / ((buildResponse q ts ss).total_tweets : ℚ) * 100 = 100) := by
    field_simp
    linarith [hcast]
  refine ⟨hsum, hpcts, ?_⟩
  have hT' : ((ts.zip ss).length : ℚ) = ((buildResponse q ts ss).total_tweets : ℚ) := by
    rw [htot]
  have d1 := pyRound_one_dist (((buildResponse q ts ss).positive_count : ℚ) /
    ((buildResponse q ts ss).total_tweets : ℚ) * 100)
  have d2 := pyRound_one_dist (((buildResponse q ts ss).neutral_count : ℚ) /
    ((buildResponse q ts ss).total_tweets : ℚ) * 100)
  have d3 := pyRound_one_dist (((buildResponse q ts ss).negative_count : ℚ) /
    ((buildResponse q ts ss).total_tweets : ℚ) * 100)
  rw [hpp, hnp, hgp, hT']
  rw [abs_le] at d1 d2 d3 ⊢
  constructor <;> linarith [hpcts]


/-- C3 witness: the invariants on a concrete one-post report. -/
theorem C3_count_percentage_invariants_witness :
    (buildResponse ("q") [{ text := ("a"), date := 0, username := ("u"), likes := 0, retweets := 0 }]
        [((0 : ℚ), ("Neutral"))]).positive_count +
      (buildResponse ("q") [{ text := ("a"), date := 0, username := ("u"), likes := 0, retweets := 0 }]
        [((0 : ℚ), ("Neutral"))]).neutral_count +
      (buildResponse ("q") [{ text := ("a"), date := 0, username := ("u"), likes := 0, retweets := 0 }]
        [((0 : ℚ), ("Neutral"))]).negative_count =
      (buildResponse ("q") [{ text := ("a"), date := 0, username := ("u"), likes := 0, retweets := 0 }]
        [((0 : ℚ), ("Neutral"))]).total_tweets ∧
    (((buildResponse ("q") [{ text := ("a"), date := 0, username := ("u"), likes := 0, retweets := 0 }]
        [((0 : ℚ), ("Neutral"))]).positive_count : ℚ) /
        ((buildResponse ("q") [{ text := ("a"), date := 0, username := ("u"), likes := 0, retweets := 0 }]
        [((0 : ℚ), ("Neutral"))]).total_tweets : ℚ) * 100 +
      ((buildResponse ("q") [{ text := ("a"), date := 0, username := ("u"), likes := 0, retweets := 0 }]
        [((0 : ℚ), ("Neutral"))]).neutral_count : ℚ) /
        ((buildResponse ("q") [{ text := ("a"), date := 0, username := ("u"), likes := 0, retweets := 0 }]
        [((0 : ℚ), ("Neutral"))]).total_tweets : ℚ) * 100 +
      ((buildResponse ("q") [{ text := ("a"), date := 0, username := ("u"), likes := 0, retweets := 0 }]
        [((0 : ℚ), ("Neutral"))]).negative_count : ℚ) /
        ((buildResponse ("q") [{ text := ("a"), date := 0, username := ("u"), likes := 0, retweets := 0 }]
        [((0 : ℚ), ("Neutral"))]).total_tweets : ℚ) * 100 = 100) ∧
    |(buildResponse ("q") [{ text := ("a"), date := 0, username := ("u"), likes := 0, retweets := 0 }]
        [((0 : ℚ), ("Neutral"))]).positive_percentage +
      (buildResponse ("q") [{ text := ("a"), date := 0, username := ("u"), likes := 0, retweets := 0 }]
        [((0 : ℚ), ("Neutral"))]).neutral_percentage +
      (buildResponse ("q") [{ text := ("a"), date := 0, username := ("u"), likes := 0, retweets := 0 }]
        [((0 : ℚ), ("Neutral"))]).negative_percentage - 100| ≤ 3 / 20 :=
  C3_count_percentage_invariants ("q")
    [{ text := ("a"), date := 0, username := ("u"), likes := 0, retweets := 0 }]
    [((0 : ℚ), ("Neutral"))] (by decide) (by decide)

/-! ### Claim C4 -/

theorem string_ne_empty_isEmpty {s : String} (h : s ≠ ("")) : s.data.isEmpty = false := by
  cases hd : s.data with
  | nil =>
    have h2 := string_mk_data s
    rw [hd] at h2
    exact absurd h2.symm h
  | cons a l => rfl

theorem analyze_sentiment_comp_error (pol : String → Except String ℚ) (msg t : String)
    (h : clean_tweet t ≠ ("")) :
    analyze_sentiment pol (fun _ => .error msg) t = .error msg := by
  have hempty := string_ne_empty_isEmpty h
  simp only [analyze_sentiment, hempty, Bool.false_eq_true, if_false]

theorem app_analyze_sentiment_pol_error (comp : String → Except String ℚ) (msg t : String)
    (h : clean_text t ≠ ("")) :
    app_analyze_sentiment (fun _ => .error msg) comp t = .error msg := by
  have hempty := string_ne_empty_isEmpty h
  simp only [app_analyze_sentiment, hempty, Bool.false_eq_true, if_false]

theorem app_analyze_sentiment_comp_error (v : ℚ) (msg t : String)
    (h : clean_text t ≠ ("")) :
    app_analyze_sentiment (fun _ => .ok v) (fun _ => .error msg) t = .error msg := by
  have hempty := string_ne_empty_isEmpty h
  simp only [app_analyze_sentiment, hempty, Bool.false_eq_true, if_false]

set_option maxRecDepth 10000 in
/-- C4 counterexample: a compound (VADER) sub-model exception on a single
post aborts the whole backend batch — the endpoint returns a 500 error
instead of a report — refuting "a sub-model failure never aborts the
batch". -/
theorem C4_compound_abort_counterexample :
    analyze_brand (fun _ => .ok 0)
        (fun s => if s = ("bad") then .error ("boom") else .ok 0) ("q")
        [{ text := ("good"), date := 0, username := ("u"), likes := 0, retweets := 0 },
         { text := ("bad"), date := 0, username := ("u"), likes := 0, retweets := 0 },
         { text := ("fine"), date := 0, username := ("u"), likes := 0, retweets := 0 }] =
      .error (.httpExc 500 ("Error analyzing sentiment: boom")) ∧
    (∀ r, analyze_brand (fun _ => .ok 0)
        (fun s => if s = ("bad") then .error ("boom") else .ok 0) ("q")
        [{ text := ("good"), date := 0, username := ("u"), likes := 0, retweets := 0 },
         { text := ("bad"), date := 0, username := ("u"), likes := 0, retweets := 0 },
         { text := ("fine"), date := 0, username := ("u"), likes := 0, retweets := 0 }] ≠ .ok r) := by
  have h1 : analyze_brand (fun _ => .ok 0)
      (fun s => if s = ("bad") then .error ("boom") else .ok 0) ("q")
      [{ text := ("good"), date := 0, username := ("u"), likes := 0, retweets := 0 },
       { text := ("bad"), date := 0, username := ("u"), likes := 0, retweets := 0 },
       { text := ("fine"), date := 0, username := ("u"), likes := 0, retweets := 0 }] =
      .error (.httpExc 500 ("Error analyzing sentiment: boom")) := by
    with_unfolding_all decide
  refine ⟨h1, fun r hr => ?_⟩
  rw [h1] at hr
  simp at hr

/-- C4 amended: in the backend only the polarity (TextBlob) sub-model is
protected: a failing polarity model is equivalent to one returning 0.0
and processing continues, but a failing compound (VADER) model makes the
per-post scorer — and therefore the whole batch — fail; in the app
neither sub-model is protected: a polarity failure aborts, and so does a
compound failure even when the polarity model succeeds. -/
theorem C4_submodel_failure_amended :
    (∀ (e : String → String) (comp : String → Except String ℚ) (t : String),
      analyze_sentiment (fun s => .error (e s)) comp t =
        analyze_sentiment (fun _ => .ok 0) comp t) ∧
    (∀ (pol : String → Except String ℚ) (msg t : String), clean_tweet t ≠ ("") →
      analyze_sentiment pol (fun _ => .error msg) t = .error msg) ∧
    (∀ (pol : String → Except String ℚ) (msg q : String) (ts : List TweetIn),
      (∃ t ∈ ts, clean_tweet t.text ≠ ("")) →
      ∀ r, analyze_brand pol (fun _ => .error msg) q ts ≠ .ok r) ∧
    (∀ (comp : String → Except String ℚ) (msg t : String), clean_text t ≠ ("") →
      app_analyze_sentiment (fun _ => .error msg) comp t = .error msg) ∧
    (∀ (v : ℚ) (msg t : String), clean_text t ≠ ("") →
      app_analyze_sentiment (fun _ => .ok v) (fun _ => .error msg) t = .error msg) := by
  refine ⟨?_, ?_, ?_, ?_, ?_⟩
  · intro e comp t
    rfl
  · intro pol msg t h
    exact analyze_sentiment_comp_error pol msg t h
  · intro pol msg q ts hex r hr
    have hne : ts ≠ [] := by
      rcases hex with ⟨t, ht, _⟩
      exact List.ne_nil_of_mem ht
    obtain ⟨er, her⟩ := @scoreAll_error_of_mem pol msg ts hex
    have hts : ts.isEmpty = false := List.isEmpty_eq_false.mpr hne
    have habort : analyze_brand pol (fun _ => .error msg) q ts =
        .error (.httpExc 500 (("Error analyzing sentiment: ") ++ er)) := by
      simp only [analyze_brand, analyze_brand_body, hts, Bool.false_eq_true, if_false, her]
      rfl
    rw [habort] at hr
    simp at hr
  · intro comp msg t h
    exact app_analyze_sentiment_pol_error comp msg t h
  · intro v msg t h
    exact app_analyze_sentiment_comp_error v msg t h

/-- C4 witness: the amended behaviours at concrete inputs, including an
uncaught compound (VADER) failure in the app with the polarity model
succeeding. -/
theorem C4_submodel_failure_amended_witness :
    analyze_sentiment (fun _ => .error ("pboom")) (fun _ => .ok 1) ("good") =
      analyze_sentiment (fun _ => .ok 0) (fun _ => .ok 1) ("good") ∧
    analyze_sentiment (fun _ => .ok 1) (fun _ => .error ("vboom")) ("good") = .error ("vboom") ∧
    (∀ r, analyze_brand (fun _ => .ok 0) (fun _ => .error ("vboom")) ("q")
        [{ text := ("good"), date := 0, username := ("u"), likes := 0, retweets := 0 }] ≠ .ok r) ∧
    app_analyze_sentiment (fun _ => .error ("pboom")) (fun _ => .ok 0) ("good") =
      .error ("pboom") ∧
    app_analyze_sentiment (fun _ => .ok 1) (fun _ => .error ("vboom")) ("good") =
      .error ("vboom") :=
  ⟨C4_submodel_failure_amended.1 (fun _ => ("pboom")) (fun _ => .ok 1) ("good"),
   C4_submodel_failure_amended.2.1 (fun _ => .ok 1) ("vboom") ("good") (by decide),
   C4_submodel_failure_amended.2.2.1 (fun _ => .ok 0) ("vboom") ("q")
     [{ text := ("good"), date := 0, username := ("u"), likes := 0, retweets := 0 }]
     (by decide),
   C4_submodel_failure_amended.2.2.2.1 (fun _ => .ok 0) ("pboom") ("good") (by decide),
   C4_submodel_failure_amended.2.2.2.2 1 ("vboom") ("good") (by decide)⟩

/-! ### Hashtag lemmas and claims C5, C9 -/

theorem extract_hashtags_length_le (tweets : List String) :
    (extract_hashtags tweets).length ≤ 10 := by
  unfold extract_hashtags
  rw [List.length_map]
  calc (((most_common 10 (tweets.flatMap
          (fun tweet => (findTags tweet).map (fun tag => tag.map Char.toLower)))).filter
        (fun p => 1 < p.2)).length)
      ≤ (most_common 10 (tweets.flatMap
          (fun tweet => (findTags tweet).map (fun tag => tag.map Char.toLower)))).length :=
        List.length_filter_le _ _
    _ ≤ 10 := by
        unfold most_common
        rw [List.length_take]
        exact Nat.min_le_left _ _

theorem extract_hashtags_sorted (tweets : List String) :
    (extract_hashtags tweets).Pairwise (fun a b => b.2 ≤ a.2) := by
  unfold extract_hashtags
  have hsorted : (List.insertionSort countGe (counterItems (tweets.flatMap
      (fun tweet => (findTags tweet).map (fun tag => tag.map Char.toLower))))).Pairwise countGe :=
    List.sorted_insertionSort countGe _
  have htake : ((most_common 10 (tweets.flatMap
      (fun tweet => (findTags tweet).map (fun tag => tag.map Char.toLower))))).Pairwise countGe :=
    hsorted.sublist (List.take_sublist _ _)
  have hfilter : (((most_common 10 (tweets.flatMap
      (fun tweet => (findTags tweet).map (fun tag => tag.map Char.toLower))))).filter
      (fun p => 1 < p.2)).Pairwise countGe :=
    htake.sublist (List.filter_sublist _)
  exact hfilter.map _ (fun a b hab => hab)

theorem mem_counterItems_count {α : Type} [DecidableEq α] {xs : List α} {p : α × ℕ}
    (h : p ∈ counterItems xs) : p.2 = xs.count p.1 := by
  unfold counterItems at h
  obtain ⟨t, _, hp⟩ := List.mem_map.1 h
  rw [← hp]

/-- C9: every entry the backend `extract_hashtags` returns has count at
least 2, and that count is the exact number of (lower-cased) occurrences
of the tag across the whole input collection — so a hashtag occurring
exactly once is never in the trending list, even when fewer than 10 tags
exist. -/
theorem C9_trending_count_at_least_two (tweets : List String) (e : String × ℕ)
    (h : e ∈ extract_hashtags tweets) :
    2 ≤ e.2 ∧ ∃ tagL : List Char, e.1 = ⟨'#' :: tagL⟩ ∧
      (tweets.flatMap (fun tweet => (findTags tweet).map (fun tag => tag.map Char.toLower))).countP
        (fun tag => tag = tagL) = e.2 := by
  unfold extract_hashtags at h
  obtain ⟨p, hpf, hpe⟩ := List.mem_map.1 h
  obtain ⟨hpc, hgt⟩ := List.mem_filter.1 hpf
  have hgt2 : 1 < p.2 := by exact_mod_cast of_decide_eq_true hgt
  have hmem : p ∈ counterItems (tweets.flatMap
      (fun tweet => (findTags tweet).map (fun tag => tag.map Char.toLower))) := by
    have h1 : p ∈ List.insertionSort countGe (counterItems (tweets.flatMap
        (fun tweet => (findTags tweet).map (fun tag => tag.map Char.toLower)))) :=
      List.take_subset _ _ hpc
    exact (List.perm_insertionSort countGe _).subset h1
  have hcount := mem_counterItems_count hmem
  refine ⟨?_, p.1, ?_, ?_⟩
  · rw [← hpe]
    omega
  · rw [← hpe]
  · rw [← hpe]
    exact hcount.symm

/-- C9 witness: the theorem applied to a collection whose only repeated
tag is `#a`, occurring twice. -/
theorem C9_trending_count_at_least_two_witness :
    2 ≤ ((("#a") : String), 2).2 ∧ ∃ tagL : List Char, ((("#a") : String), 2).1 = ⟨'#' :: tagL⟩ ∧
      ([("#a #a #b")].flatMap
        (fun tweet => (findTags tweet).map (fun tag => tag.map Char.toLower))).countP
        (fun tag => tag = tagL) = ((("#a") : String), 2).2 :=
  C9_trending_count_at_least_two [("#a #a #b")] ((("#a") : String), 2) (by decide)

/-- C5 counterexample: the app `extract_hashtags` does not aggregate
case-insensitively: on the claim example it returns the two distinct
case variants `#Tesla` and `#tesla` (and no counts at all), not a single
`#tesla`-equivalent entry with count 3. -/
theorem C5_app_case_sensitive_counterexample :
    app_extract_hashtags [("I love #Tesla and #tesla today"), ("#Tesla again")] =
      [("#Tesla"), ("#tesla")] ∧
    (("#Tesla") : String) ≠ ("#tesla") ∧
    (app_extract_hashtags [("I love #Tesla and #tesla today"), ("#Tesla again")]).length ≠ 1 := by
  refine ⟨by decide, by decide, by decide⟩

/-- C5 amended: the backend `extract_hashtags` aggregates
case-insensitively — on the claim example it returns the single entry
`#tesla` with count 3 ranked first — and in general returns at most 10
entries ranked descending by count; the app variant counts
case-sensitively and returns bare tags without counts. -/
theorem C5_hashtags_case_insensitive_amended :
    extract_hashtags [("I love #Tesla and #tesla today"), ("#Tesla again")] =
      [((("#tesla") : String), 3)] ∧
    (∀ tweets : List String, (extract_hashtags tweets).length ≤ 10) ∧
    (∀ tweets : List String, (extract_hashtags tweets).Pairwise (fun a b => b.2 ≤ a.2)) ∧
    app_extract_hashtags [("I love #Tesla and #tesla today"), ("#Tesla again")] =
      [("#Tesla"), ("#tesla")] :=
  ⟨by decide, extract_hashtags_length_le, extract_hashtags_sorted, by decide⟩

/-! ### Claim C10 -/

/-- C10: every successful `/analyze` response lists at most the first 50
analyzed posts (in input order) with each displayed text truncated to
the first 280 characters of the original post text, while `total_tweets`,
the three counts and the three percentages are computed over all
analyzed posts. -/
theorem C10_response_truncation (pol comp : String → Except String ℚ) (q : String)
    (ts : List TweetIn) (r : SentimentResponse)
    (h : analyze_brand pol comp q ts = .ok r) :
    ∃ ss : List (ℚ × String), scoreAll pol comp ts = .ok ss ∧
      r.total_tweets = ts.length ∧
      r.tweets.length = min ts.length 50 ∧
      (∀ i (h1 : i < r.tweets.length) (h2 : i < ts.length),
        (r.tweets[i]).text = ⟨(ts[i]).text.data.take 280⟩ ∧
        (r.tweets[i]).text.data.length ≤ 280) ∧
      r.positive_count = ss.countP (fun s => s.2 == "Positive") ∧
      r.neutral_count = ss.countP (fun s => !(s.2 == "Positive") && !(s.2 == "Negative")) ∧
      r.negative_count = ss.countP (fun s => !(s.2 == "Positive") && s.2 == "Negative") ∧
      r.positive_percentage =
        pyRound ((ss.countP (fun s => s.2 == "Positive") : ℚ) / (ts.length : ℚ) * 100) 1 ∧
      r.neutral_percentage =
        pyRound ((ss.countP (fun s => !(s.2 == "Positive") && !(s.2 == "Negative")) : ℚ) /
          (ts.length : ℚ) * 100) 1 ∧
      r.negative_percentage =
        pyRound ((ss.countP (fun s => !(s.2 == "Positive") && s.2 == "Negative") : ℚ) /
          (ts.length : ℚ) * 100) 1 := by
  unfold analyze_brand at h
  cases hb : analyze_brand_body pol comp q ts with
  | error e => rw [hb] at h; simp at h
  | ok r0 =>
    rw [hb] at h
    simp only [Except.ok.injEq] at h
    subst h
    unfold analyze_brand_body at hb
    cases hE : ts.isEmpty with
    | true => rw [hE] at hb; simp at hb
    | false =>
      rw [hE] at hb
      simp only [Bool.false_eq_true, if_false] at hb
      cases hsc : scoreAll pol comp ts with
      | error e => rw [hsc] at hb; simp at hb
      | ok ss =>
        rw [hsc] at hb
        simp only [Except.ok.injEq] at hb
        subst hb
        have hlen : ss.length = ts.length := scoreAll_ok_length hsc
        have hzl : (ts.zip ss).length = ts.length := zip_length_eq hlen
        obtain ⟨hp, hn, hg, htot⟩ := buildResponse_counts (⟨stripChars q.data⟩ : String) ts ss
        obtain ⟨hpp, hnp, hgp⟩ := buildResponse_pcts (⟨stripChars q.data⟩ : String) ts ss
        have htw := buildResponse_tweets (⟨stripChars q.data⟩ : String) ts ss
        refine ⟨ss, rfl, ?_, ?_, ?_, ?_, ?_, ?_, ?_, ?_, ?_⟩
        · rw [htot, hzl]
        · rw [htw, List.length_take, List.length_map, hzl, Nat.min_comm]
        · intro i h1 h2
          constructor
          · simp only [htw, List.getElem_take, List.getElem_map, List.getElem_zip]
          · simp only [htw, List.getElem_take, List.getElem_map, List.getElem_zip]
            rw [List.length_take]
            exact Nat.min_le_left _ _
        · rw [hp, zip_countP_labels hlen]
        · rw [hn, zip_countP_labels hlen]
        · rw [hg, zip_countP_labels hlen]
        · rw [hpp, hp, zip_countP_labels hlen, hzl]
        · rw [hnp, hn, zip_countP_labels hlen, hzl]
        · rw [hgp, hg, zip_countP_labels hlen, hzl]

/-- C10 witness: the theorem applied to a concrete successful call. -/
theorem C10_response_truncation_witness :
    ∃ ss : List (ℚ × String),
      scoreAll (fun _ => .ok 0) (fun _ => .ok 0)
        [{ text := ("meh"), date := 1, username := ("u"), likes := 2, retweets := 3 }] = .ok ss ∧
      (buildResponse ("q")
        [{ text := ("meh"), date := 1, username := ("u"), likes := 2, retweets := 3 }]
        [((0 : ℚ), ("Neutral"))]).total_tweets =
        ([{ text := ("meh"), date := 1, username := ("u"), likes := 2, retweets := 3 }] :
          List TweetIn).length ∧
      (buildResponse ("q")
        [{ text := ("meh"), date := 1, username := ("u"), likes := 2, retweets := 3 }]
        [((0 : ℚ), ("Neutral"))]).tweets.length =
        min ([{ text := ("meh"), date := 1, username := ("u"), likes := 2, retweets := 3 }] :
          List TweetIn).length 50 := by
  obtain ⟨ss, h1, h2, h3, _⟩ := C10_response_truncation (fun _ => .ok 0) (fun _ => .ok 0) ("q")
    [{ text := ("meh"), date := 1, username := ("u"), likes := 2, retweets := 3 }]
    (buildResponse ("q")
      [{ text := ("meh"), date := 1, username := ("u"), likes := 2, retweets := 3 }]
      [((0 : ℚ), ("Neutral"))])
    (by with_unfolding_all decide)
  exact ⟨ss, h1, h2, h3⟩

end BrandSentiment
